import Mathlib

/-!
Shallow embedding of the GNotebook application (src/app.py): a Streamlit
front-end over the Google Drive v3 files API. The embedding covers the
Remote File Store Client functions (`get_text_files_http`, `read_file_http`,
`create_file_http`, `update_file_http`) and the Editor Session Controller
(the `main` function's session-state handling). Network responses are
inputs: each client function takes the store's response as an explicit
argument, so quantifying over responses quantifies over store behaviours.
-/

/-- One entry of the `files(id, name)` projection returned by the Drive
list endpoint (the only fields the code requests). -/
structure RemoteFile where
  id : String
  name : String
deriving DecidableEq, Repr

/-- A user-visible Streamlit message: `st.error`, `st.warning`,
`st.success`, `st.info`. -/
inductive Msg where
  | error (text : String)
  | warning (text : String)
  | success (text : String)
  | info (text : String)
deriving DecidableEq, Repr

/-- A network call issued to the document store, recorded for call-counting
properties. -/
inductive StoreCall where
  | listFiles
  | readFile (id : String)
  | createFile (name : String) (content : String)
  | updateFile (id : String) (content : String)
  | deleteFile (id : String)
deriving DecidableEq, Repr

/-- Response to the list request. On HTTP 200 the code reads
`response.json().get('files', [])`, so the `files` key may be absent
(`none`); otherwise the status code and body text are kept. -/
inductive ListResp where
  | ok (files : Option (List RemoteFile))
  | err (code : Nat) (text : String)
deriving DecidableEq, Repr

/-- Response to the read (`alt=media`) request: the body text on HTTP 200,
or the status code and error body. -/
inductive HttpResp where
  | ok (body : String)
  | err (code : Nat) (text : String)
deriving DecidableEq, Repr

/-- Response to the multipart create request. Per the Drive API contract
(spec section 6, `create(metadata, content) -> \x7bid\x7d`) a 200 response
carries the newly assigned file id, which the code extracts with
`response.json().get('id')`. -/
inductive WriteResp where
  | ok (id : String)
  | err (code : Nat) (text : String)
deriving DecidableEq, Repr

/-- Response to the `uploadType=media` PATCH request; the code only
inspects the status code. -/
inductive UpdateResp where
  | ok
  | err (code : Nat) (text : String)
deriving DecidableEq, Repr

/-- Response to a delete request (used only by the spec-modelled
delete path; src/app.py issues no delete calls). -/
inductive DeleteResp where
  | ok
  | err (code : Nat) (text : String)
deriving DecidableEq, Repr

/-- Python truthiness test `not file_id` for an optional string:
true exactly on `None` and the empty string. -/
def py_not : Option String → Bool
  | none => true
  | some s => s == ""

/-- `get_text_files_http` (src/app.py lines 35-56): on HTTP 200 return
`response.json().get('files', [])`; otherwise show
`st.error($"一覧取得エラー: \x7bresponse.text\x7d")` and return `[]`. -/
def get_text_files_http : ListResp → List RemoteFile × List Msg
  | .ok files => (files.getD [], [])
  | .err _ text => ([], [Msg.error ("一覧取得エラー: " ++ text)])

/-- `read_file_http` (src/app.py lines 58-73): `if not file_id: return ""`
(no request made); on HTTP 200 return the body; otherwise show
`st.error($"読み込みエラー: \x7bresponse.text\x7d")` and return `""`.
The middle component records whether a network request was issued. -/
def read_file_http (file_id : Option String) (resp : HttpResp) :
    String × Bool × List Msg :=
  if py_not file_id then ("", false, [])
  else
    match resp with
    | .ok body => (body, true, [])
    | .err _ text => ("", true, [Msg.error ("読み込みエラー: " ++ text)])

/-- `create_file_http` (src/app.py lines 75-106): a single multipart POST
bundling metadata `\x7bname: title, mimeType: text/plain\x7d` with the content;
on HTTP 200 return the new id, otherwise raise
`Exception($"作成エラー(\x7bstatus\x7d): \x7btext\x7d")`, modelled as `Except.error`. -/
def create_file_http (title content : String) : WriteResp → Except String String
  | .ok id => Except.ok id
  | .err code text =>
      Except.error ("作成エラー(" ++ toString code ++ "): " ++ text)

/-- `update_file_http` (src/app.py lines 108-122): PATCH the content bytes
only (`uploadType=media`, no metadata part); raise
`Exception($"更新エラー(\x7bstatus\x7d): \x7btext\x7d")` on a non-200 status,
modelled as `Except.error`; returns nothing on success. -/
def update_file_http (file_id content : String) : UpdateResp → Except String Unit
  | .ok => Except.ok ()
  | .err code text =>
      Except.error ("更新エラー(" ++ toString code ++ "): " ++ text)

/-- The per-session state held in `st.session_state` (src/app.py lines
135-140), plus the two-step delete guard `pendingDeleteConfirmation`.
Modelled from the spec: the delete guard and its `RequestDelete` handling
are absent from src/app.py (the variant has no delete UI); they follow the
spec's EditorSession data model (section 3) and transition table
(section 4.2). -/
structure SessionState where
  current_file_id : Option String
  input_title : String
  input_content : String
  pendingDeleteConfirmation : Bool
deriving DecidableEq, Repr

/-- The default title `"無題.txt"` used at session start and by the
new-file button (src/app.py lines 138, 147). -/
def defaultTitle : String := "無題.txt"

/-- State after the `＋ 新規作成` (StartNew) button (src/app.py lines
145-149): id cleared, title reset to the default, content cleared; the
delete guard (spec-modelled) is reset to Idle. -/
def startNewState : SessionState :=
  { current_file_id := none
    input_title := defaultTitle
    input_content := ""
    pendingDeleteConfirmation := false }

/-- Initial session state (src/app.py lines 135-140). -/
def initState : SessionState := startNewState

/-- Session mode in the sense of the spec (section 4.2): `Create` when
`selectedFileId` is null, `Edit` otherwise — the exact condition of
src/app.py line 165 (`if st.session_state.current_file_id is None`). -/
inductive Mode where
  | create
  | edit
deriving DecidableEq, Repr

/-- The mode the rendered page displays for a state. -/
def modeOf (st : SessionState) : Mode :=
  match st.current_file_id with
  | none => Mode.create
  | some _ => Mode.edit

/-- A user action together with the store responses it consumes.
`selectFile i` presses the sidebar button of the `i`-th listed file
(a button exists only for files in the rendered list); `save` presses
保存する with the form's title and content; `requestDelete` is the
spec-modelled delete press. -/
inductive Event where
  | startNew
  | selectFile (i : Nat) (rresp : HttpResp)
  | save (title content : String) (cresp : WriteResp) (uresp : UpdateResp)
  | requestDelete (dresp : DeleteResp)
deriving DecidableEq, Repr

/-- Dispatch one user action against the session state, given the list
`files` rendered in the sidebar this run. Mirrors src/app.py lines
145-197; the `requestDelete` branch is modelled from the spec's
transition table (section 4.2) since src/app.py has no delete handling.
Returns the new state, the messages shown, and the store calls issued
by the action handler. -/
def handleEvent (files : List RemoteFile) (st : SessionState) :
    Event → SessionState × List Msg × List StoreCall
  | .startNew => (startNewState, [], [])
  | .selectFile i rresp =>
      match files[i]? with
      | none => (st, [], [])
      | some f =>
          let r := read_file_http (some f.id) rresp
          ({ current_file_id := some f.id
             input_title := f.name
             input_content := r.1
             pendingDeleteConfirmation := false },
           r.2.2,
           if r.2.1 then [StoreCall.readFile f.id] else [])
  | .save title content cresp uresp =>
      if title = "" then
        (st, [Msg.warning ("ファイル名を入力してください。")], [])
      else
        match st.current_file_id with
        | none =>
            match create_file_http title content cresp with
            | .ok newId =>
                ({ current_file_id := some newId
                   input_title := title
                   input_content := content
                   pendingDeleteConfirmation := false },
                 [Msg.success ("作成完了！ ID: " ++ newId)],
                 [StoreCall.createFile title content])
            | .error e =>
                (st, [Msg.error ("保存失敗: " ++ e)],
                 [StoreCall.createFile title content])
        | some fid =>
            match update_file_http fid content uresp with
            | .ok _ =>
                ({ st with
                     input_title := title
                     input_content := content
                     pendingDeleteConfirmation := false },
                 [Msg.success ("上書き完了！")],
                 [StoreCall.updateFile fid content])
            | .error e =>
                (st, [Msg.error ("保存失敗: " ++ e)],
                 [StoreCall.updateFile fid content])
  | .requestDelete dresp =>
      match st.current_file_id with
      | none => (st, [], [])
      | some fid =>
          if st.pendingDeleteConfirmation then
            match dresp with
            | .ok => (startNewState, [], [StoreCall.deleteFile fid])
            | .err _ text =>
                (st, [Msg.error text], [StoreCall.deleteFile fid])
          else
            ({ st with pendingDeleteConfirmation := true }, [], [])

/-- One page run: the sidebar fetches the file list
(src/app.py line 153) and then one user action is dispatched against it.
`listResp` is the store's response to that run's list request. -/
structure StepInput where
  listResp : ListResp
  ev : Event
deriving DecidableEq, Repr

/-- One full run of the page: list fetch followed by the action. -/
def step (st : SessionState) (inp : StepInput) :
    SessionState × List Msg × List StoreCall :=
  let lr := get_text_files_http inp.listResp
  let r := handleEvent lr.1 st inp.ev
  (r.1, lr.2 ++ r.2.1, StoreCall.listFiles :: r.2.2)

/-- The state after one full run. -/
def applyStep (st : SessionState) (inp : StepInput) : SessionState :=
  (step st inp).1

/-- The state after a sequence of runs. -/
def runTrace : SessionState → List StepInput → SessionState
  | st, [] => st
  | st, inp :: rest => runTrace (applyStep st inp) rest

/-- The ids returned by a successful create performed in this run:
nonempty exactly when the action is a Save with a non-blank title taken
in Create mode and the store's create response succeeds (mirroring the
create branch of `handleEvent`). -/
def createdInStep (st : SessionState) : Event → List String
  | .save title _ (.ok newId) _ =>
      if title = "" then []
      else if st.current_file_id = none then [newId] else []
  | _ => []

/-- All ids the session has learned from the store along a trace: the ids
in each run's rendered list plus the ids returned by successful creates. -/
def knownIds : SessionState → List StepInput → List String
  | _, [] => []
  | st, inp :: rest =>
      ((get_text_files_http inp.listResp).1.map (fun f => f.id))
        ++ createdInStep st inp.ev
        ++ knownIds (applyStep st inp) rest

/-- The ids returned by successful creates along a trace. -/
def createdIdsTrace : SessionState → List StepInput → List String
  | _, [] => []
  | st, inp :: rest =>
      createdInStep st inp.ev ++ createdIdsTrace (applyStep st inp) rest

/-- The ids in the most recent rendered list of a trace (empty for the
empty trace). -/
def lastListIds : List StepInput → List String
  | [] => []
  | [inp] => (get_text_files_http inp.listResp).1.map (fun f => f.id)
  | _ :: rest => lastListIds rest

/-- A stored document on the remote store: the metadata fields the code
touches plus the content (external collaborator, spec section 6). -/
structure StoredFile where
  name : String
  mimeType : String
  content : String
deriving DecidableEq, Repr

/-- Effect on the store of the request `update_file_http` sends: a
`uploadType=media` PATCH carries content bytes only and no metadata part
(src/app.py lines 113-119), so the store overwrites the content of the
addressed id and touches nothing else (Drive API `update(fileId, content)`,
spec section 6). The store is an association list from ids to files. -/
def storeApplyUpdate (store : List (String × StoredFile))
    (file_id : String) (content : String) : List (String × StoredFile) :=
  store.map (fun e =>
    if e.1 = file_id then (e.1, { e.2 with content := content }) else e)

/-- Helper: a state displays Create mode exactly when its id is null. -/
theorem modeOf_create_iff (st : SessionState) :
    modeOf st = Mode.create ↔ st.current_file_id = none := by
  cases h : st.current_file_id <;> simp [modeOf, h]

/-- Claim C3: a Save pressed with an empty title changes no session state,
issues no store call, and shows the warning ファイル名を入力してください。 -/
theorem save_blank_title_rejected (files : List RemoteFile)
    (st : SessionState) (content : String) (cresp : WriteResp)
    (uresp : UpdateResp) :
    handleEvent files st (.save "" content cresp uresp)
      = (st, [Msg.warning ("ファイル名を入力してください。")], []) := by
  rfl

/-- Claim C8: a read with a null or empty file id returns empty text,
issues no network request, and shows no error. -/
theorem read_blank_id_no_request (resp : HttpResp) :
    read_file_http none resp = ("", false, [])
      ∧ read_file_http (some ("")) resp = ("", false, []) := by
  exact ⟨rfl, rfl⟩

/-- Claim C9 (counterexample): the claim says StartNew leaves the title
empty; in the code StartNew sets `input_title = "無題.txt"`, which is not
the empty string. -/
theorem startNew_title_not_cleared :
    (handleEvent [] ⟨some ("f1"), "old", "body", false⟩
        Event.startNew).1.input_title = "無題.txt"
      ∧ "無題.txt" ≠ "" := by
  exact ⟨rfl, by decide⟩

/-- Claim C9 (amended): StartNew clears selectedFileId and body, resets
the title to the default name 無題.txt, and leaves the session in Create
mode with the delete guard Idle. -/
theorem startNew_resets_session (files : List RemoteFile)
    (st : SessionState) :
    handleEvent files st Event.startNew = (startNewState, [], [])
      ∧ startNewState.current_file_id = none
      ∧ startNewState.input_title = defaultTitle
      ∧ startNewState.input_content = ""
      ∧ startNewState.pendingDeleteConfirmation = false
      ∧ modeOf startNewState = Mode.create := by
  exact ⟨rfl, rfl, rfl, rfl, rfl, rfl⟩

/-- Claim C6 (counterexample): the claim says a non-success list response
makes the operation fail with a TransportError rather than return a normal
result; in the code a non-200 status produces an error message and the
normal result `[]`. -/
theorem list_error_returns_normal_result :
    get_text_files_http (ListResp.err 500 ("boom"))
      = ([], [Msg.error ("一覧取得エラー: boom")]) := by
  rfl

/-- Claim C6 (amended): on success with no matching files (a missing
`files` key or an empty list) the result is the empty sequence with no
message; on any non-success status the operation emits a user-visible
error message and returns the empty sequence instead of failing. -/
theorem list_empty_and_error_behaviour (code : Nat) (text : String) :
    get_text_files_http (ListResp.ok none) = ([], [])
      ∧ get_text_files_http (ListResp.ok (some [])) = ([], [])
      ∧ get_text_files_http (ListResp.err code text)
          = ([], [Msg.error ("一覧取得エラー: " ++ text)]) := by
  exact ⟨rfl, rfl, rfl⟩

/-- Claim C2: when the store write fails during a Save (create or update
responding with a non-success status), the session state after the action
is exactly the state before it, a user-visible error message is produced,
and a failed create in particular leaves the session in Create mode. -/
theorem save_store_failure_leaves_state (files : List RemoteFile)
    (st : SessionState) (title content : String) (ca cb : Nat)
    (ta tb : String) (h : title ≠ "") :
    (handleEvent files st
        (.save title content (.err ca ta) (.err cb tb))).1 = st
      ∧ (∃ m, Msg.error m ∈ (handleEvent files st
          (.save title content (.err ca ta) (.err cb tb))).2.1)
      ∧ (st.current_file_id = none →
          modeOf (handleEvent files st
            (.save title content (.err ca ta) (.err cb tb))).1
              = Mode.create) := by
  cases hcur : st.current_file_id <;>
    simp [handleEvent, h, hcur, create_file_http, update_file_http, modeOf]

/-- Claim C2 (witness): a concrete failed create from the initial state. -/
theorem save_store_failure_leaves_state_witness :
    (handleEvent [] initState
        (.save ("t") ("c") (.err 500 ("x")) (.err 500 ("y")))).1 = initState
      ∧ (∃ m, Msg.error m ∈ (handleEvent [] initState
          (.save ("t") ("c") (.err 500 ("x")) (.err 500 ("y")))).2.1)
      ∧ modeOf (handleEvent [] initState
          (.save ("t") ("c") (.err 500 ("x")) (.err 500 ("y")))).1
            = Mode.create := by
  have h := save_store_failure_leaves_state [] initState ("t") ("c")
    500 500 ("x") ("y") (by decide)
  exact ⟨h.1, h.2.1, h.2.2 rfl⟩

/-- Claim C4: a successful Save taken in Create mode issues the create
call (the null-id write), adopts the returned id as selectedFileId, keeps
the form's title and body, and moves the session to Edit mode with the
delete guard Idle. -/
theorem save_create_adopts_id (files : List RemoteFile) (st : SessionState)
    (title content newId : String) (uresp : UpdateResp)
    (h : title ≠ "") (hcur : st.current_file_id = none) :
    handleEvent files st (.save title content (.ok newId) uresp)
      = (⟨some newId, title, content, false⟩,
         [Msg.success ("作成完了！ ID: " ++ newId)],
         [StoreCall.createFile title content])
      ∧ modeOf (⟨some newId, title, content, false⟩ : SessionState)
          = Mode.edit := by
  simp [handleEvent, h, hcur, create_file_http, modeOf]

/-- Claim C4 (witness): a concrete successful create from the initial
state adopts the returned id. -/
theorem save_create_adopts_id_witness :
    handleEvent [] initState
        (.save ("t") ("c") (.ok ("id9")) UpdateResp.ok)
      = (⟨some ("id9"), "t", "c", false⟩,
         [Msg.success ("作成完了！ ID: id9")],
         [StoreCall.createFile ("t") ("c")])
      ∧ modeOf (⟨some ("id9"), "t", "c", false⟩ : SessionState)
          = Mode.edit := by
  have h := save_create_adopts_id [] initState ("t") ("c") ("id9")
    UpdateResp.ok (by decide) rfl
  simpa using h

/-- Claim C5: a Save taken in Edit mode sends a content-only update
addressed to the held id; on the store that overwrites only the content of
that id — every id, name and mimeType in the store is as before — and the
session's selectedFileId is unchanged. -/
theorem update_is_content_only (store : List (String × StoredFile))
    (fid content : String) (files : List RemoteFile) (st : SessionState)
    (title : String) (cresp : WriteResp)
    (hcur : st.current_file_id = some fid) (h : title ≠ "") :
    ((storeApplyUpdate store fid content).map
        (fun e => (e.1, e.2.name, e.2.mimeType))
      = store.map (fun e => (e.1, e.2.name, e.2.mimeType)))
      ∧ (∀ e ∈ storeApplyUpdate store fid content,
          e.1 = fid → e.2.content = content)
      ∧ (handleEvent files st
          (.save title content cresp UpdateResp.ok)).1.current_file_id
            = some fid
      ∧ (handleEvent files st
          (.save title content cresp UpdateResp.ok)).2.2
            = [StoreCall.updateFile fid content] := by
  refine ⟨?_, ?_, ?_, ?_⟩
  · simp only [storeApplyUpdate, List.map_map]
    apply List.map_congr_left
    intro e _
    by_cases he : e.1 = fid <;> simp [he]
  · intro e he hef
    obtain ⟨a, _, rfl⟩ := List.mem_map.mp he
    by_cases ha : a.1 = fid
    · simp [ha]
    · simp [ha] at hef
  · simp [handleEvent, h, hcur, update_file_http]
  · simp [handleEvent, h, hcur, update_file_http]

/-- A two-file sample store used to instantiate the update frame
property. -/
def sampleStore : List (String × StoredFile) :=
  [("a", ⟨"a.txt", "text/plain", "old"⟩),
   ("b", ⟨"b.txt", "text/plain", "keep"⟩)]

/-- Claim C5 (witness): a concrete two-file store and an edit-mode save. -/
theorem update_is_content_only_witness :
    ((storeApplyUpdate sampleStore ("a") ("new")).map
        (fun e => (e.1, e.2.name, e.2.mimeType))
      = sampleStore.map (fun e => (e.1, e.2.name, e.2.mimeType)))
      ∧ (∀ e ∈ storeApplyUpdate sampleStore ("a") ("new"),
          e.1 = "a" → e.2.content = "new")
      ∧ (handleEvent [] ⟨some ("a"), "a.txt", "old", false⟩
          (.save ("a.txt") ("new") (WriteResp.err 0 ("")) UpdateResp.ok)).1.current_file_id
            = some ("a")
      ∧ (handleEvent [] ⟨some ("a"), "a.txt", "old", false⟩
          (.save ("a.txt") ("new") (WriteResp.err 0 ("")) UpdateResp.ok)).2.2
            = [StoreCall.updateFile ("a") ("new")] := by
  exact update_is_content_only sampleStore ("a") ("new") []
    ⟨some ("a"), "a.txt", "old", false⟩ ("a.txt")
    (WriteResp.err 0 ("")) rfl (by decide)

/-- Claim C7: from Edit mode with the guard Idle, one RequestDelete only
arms the confirmation guard and issues no store call; an immediately
following RequestDelete issues exactly one delete call addressed to the
held id and returns the session to Create mode with cleared state. -/
theorem delete_requires_two_presses (files filesB : List RemoteFile)
    (st : SessionState) (fid : String) (r1 : DeleteResp)
    (hcur : st.current_file_id = some fid)
    (hidle : st.pendingDeleteConfirmation = false) :
    handleEvent files st (.requestDelete r1)
        = ({ st with pendingDeleteConfirmation := true }, [], [])
      ∧ handleEvent filesB { st with pendingDeleteConfirmation := true }
            (.requestDelete DeleteResp.ok)
          = (startNewState, [], [StoreCall.deleteFile fid])
      ∧ modeOf startNewState = Mode.create := by
  refine ⟨?_, ?_, rfl⟩ <;> simp [handleEvent, hcur, hidle]

/-- Claim C7 (witness): a concrete double press from an edit session. -/
theorem delete_requires_two_presses_witness :
    handleEvent [] ⟨some ("a"), "a.txt", "body", false⟩
        (.requestDelete (DeleteResp.err 0 ("")))
      = (⟨some ("a"), "a.txt", "body", true⟩, [], [])
      ∧ handleEvent [] ⟨some ("a"), "a.txt", "body", true⟩
            (.requestDelete DeleteResp.ok)
          = (startNewState, [], [StoreCall.deleteFile ("a")])
      ∧ modeOf startNewState = Mode.create := by
  have h := delete_requires_two_presses [] []
    ⟨some ("a"), "a.txt", "body", false⟩ ("a")
    (DeleteResp.err 0 ("")) rfl rfl
  simpa using h

/-- Claim C10: a read whose store response is non-success always yields
empty text; when a request was actually issued (non-blank id) the error
message is shown; and a SelectFile whose read fails still completes,
adopting the file's id with an empty body — no failure propagates. -/
theorem read_failure_yields_empty (fid : Option String)
    (files : List RemoteFile) (st : SessionState) (i : Nat)
    (f : RemoteFile) (c : Nat) (t : String) :
    (read_file_http fid (.err c t)).1 = ""
      ∧ (py_not fid = false →
          read_file_http fid (.err c t)
            = ("", true, [Msg.error ("読み込みエラー: " ++ t)]))
      ∧ (files[i]? = some f →
          (handleEvent files st
              (.selectFile i (.err c t))).1.current_file_id = some f.id
            ∧ (handleEvent files st
                (.selectFile i (.err c t))).1.input_content = "") := by
  refine ⟨?_, ?_, ?_⟩
  · by_cases hp : py_not fid <;> simp [read_file_http, hp]
  · intro hp
    simp [read_file_http, hp]
  · intro hf
    constructor <;> simp [handleEvent, hf, read_file_http] <;>
      by_cases hp : py_not (some f.id) <;> simp [hp]

/-- Claim C10 (witness): a concrete failing read and a concrete failing
SelectFile. -/
theorem read_failure_yields_empty_witness :
    (read_file_http (some ("x")) (.err 404 ("nf"))).1 = ""
      ∧ read_file_http (some ("x")) (.err 404 ("nf"))
          = ("", true, [Msg.error ("読み込みエラー: nf")])
      ∧ ((handleEvent [⟨"x", "x.txt"⟩] initState
            (.selectFile 0 (.err 404 ("nf")))).1.current_file_id = some ("x")
          ∧ (handleEvent [⟨"x", "x.txt"⟩] initState
              (.selectFile 0 (.err 404 ("nf")))).1.input_content = "") := by
  have h := read_failure_yields_empty (some ("x")) [⟨"x", "x.txt"⟩]
    initState 0 ⟨"x", "x.txt"⟩ 404 ("nf")
  exact ⟨h.1, h.2.1 (by decide), h.2.2 rfl⟩

/-- Helper: unfolding of `knownIds` on a cons. -/
theorem knownIds_cons (st : SessionState) (inp : StepInput)
    (rest : List StepInput) :
    knownIds st (inp :: rest)
      = ((get_text_files_http inp.listResp).1.map (fun f => f.id)
          ++ createdInStep st inp.ev)
        ++ knownIds (applyStep st inp) rest := rfl

/-- Helper: any id the session holds after one run was either already held
before the run, or appears in that run's rendered list, or was returned by
that run's successful create. -/
theorem step_adopt (st : SessionState) (inp : StepInput) (i : String)
    (h : (applyStep st inp).current_file_id = some i) :
    i ∈ ((get_text_files_http inp.listResp).1.map (fun f => f.id)
          ++ createdInStep st inp.ev)
      ∨ st.current_file_id = some i := by
  obtain ⟨lr, ev⟩ := inp
  cases ev with
  | startNew => simp [applyStep, step, handleEvent, startNewState] at h
  | selectFile j rresp =>
      cases hf : (get_text_files_http lr).1[j]? with
      | none =>
          right
          simpa [applyStep, step, handleEvent, hf] using h
      | some f =>
          left
          simp [applyStep, step, handleEvent, hf] at h
          subst h
          exact List.mem_append_left _
            (List.mem_map.mpr ⟨f, List.getElem?_mem hf, rfl⟩)
  | save title content cresp uresp =>
      by_cases ht : title = ""
      · right
        simpa [applyStep, step, handleEvent, ht] using h
      · cases hcur : st.current_file_id with
        | none =>
            cases cresp with
            | ok newId =>
                left
                simp [applyStep, step, handleEvent, ht, hcur,
                  create_file_http] at h
                simp [createdInStep, ht, hcur, h]
            | err ca ta =>
                right
                simpa [applyStep, step, handleEvent, ht, hcur,
                  create_file_http] using h
        | some fid =>
            cases uresp with
            | ok =>
                right
                simpa [applyStep, step, handleEvent, ht, hcur,
                  update_file_http] using h
            | err cb tb =>
                right
                simpa [applyStep, step, handleEvent, ht, hcur,
                  update_file_http] using h
  | requestDelete dresp =>
      cases hcur : st.current_file_id with
      | none =>
          right
          simpa [applyStep, step, handleEvent, hcur] using h
      | some fid =>
          cases hp : st.pendingDeleteConfirmation with
          | true =>
              cases dresp with
              | ok =>
                  simp [applyStep, step, handleEvent, hcur, hp,
                    startNewState] at h
              | err cc tc =>
                  right
                  simpa [applyStep, step, handleEvent, hcur, hp] using h
          | false =>
              right
              simpa [applyStep, step, handleEvent, hcur, hp] using h

/-- Helper: along any trace, an id the session ends up holding is either
one the trace learned from the store (a list result or a successful
create) or one the session already held at the start. -/
theorem session_id_known_aux (inps : List StepInput) :
    ∀ (st : SessionState) (i : String),
      (runTrace st inps).current_file_id = some i →
      i ∈ knownIds st inps ∨ st.current_file_id = some i := by
  induction inps with
  | nil =>
      intro st i h
      right
      simpa [runTrace] using h
  | cons inp rest ih =>
      intro st i h
      rw [runTrace] at h
      rcases ih (applyStep st inp) i h with h1 | h2
      · left
        rw [knownIds_cons]
        exact List.mem_append_right _ h1
      · rcases step_adopt st inp i h2 with h3 | h4
        · left
          rw [knownIds_cons]
          exact List.mem_append_left _ h3
        · right
          exact h4

/-- Claim C1 (amended): along every trace of actions from the initial
state, the session is in Create mode iff selectedFileId is null; and
whenever the session is in Edit mode, its id came from the store during
the trace — it was returned by a successful create or appeared in a
rendered list result (the one current when the file was selected), though
not necessarily in the most recent list result. -/
theorem session_mode_and_id_provenance (inps : List StepInput)
    (i : String) :
    (modeOf (runTrace initState inps) = Mode.create
        ↔ (runTrace initState inps).current_file_id = none)
      ∧ ((runTrace initState inps).current_file_id = some i →
          i ∈ knownIds initState inps) := by
  refine ⟨modeOf_create_iff _, fun h => ?_⟩
  rcases session_id_known_aux inps initState i h with h1 | h2
  · exact h1
  · simp [initState, startNewState] at h2

/-- A one-run trace that selects the only listed file. -/
def provenanceTrace : List StepInput :=
  [⟨ListResp.ok (some [⟨"a", "a.txt"⟩]), Event.selectFile 0 (.ok ("hi"))⟩]

/-- Claim C1 (witness): the provenance theorem at a concrete one-run
trace. -/
theorem session_mode_and_id_provenance_witness :
    (modeOf (runTrace initState provenanceTrace) = Mode.create
        ↔ (runTrace initState provenanceTrace).current_file_id = none)
      ∧ "a" ∈ knownIds initState provenanceTrace := by
  have h := session_mode_and_id_provenance provenanceTrace ("a")
  exact ⟨h.1, h.2 (by decide)⟩

/-- A trace that selects file `a` and then, in a run whose rendered list
is empty, presses Save with a blank title (a rejected no-op Save). -/
def staleIdTrace : List StepInput :=
  [⟨ListResp.ok (some [⟨"a", "a.txt"⟩]), Event.selectFile 0 (.ok ("hi"))⟩,
   ⟨ListResp.ok (some []),
     Event.save ("") ("") (WriteResp.err 0 ("")) (UpdateResp.err 0 (""))⟩]

/-- Claim C1 (counterexample): after selecting file `a` and then a run
whose rendered list no longer contains it, the session is in Edit mode
holding id `a`, yet `a` was never returned by a create and is absent from
the most recent listDocuments result — the claim's "most recent list"
clause fails on this trace of SelectFile/Save actions. -/
theorem session_id_not_in_latest_list :
    modeOf (runTrace initState staleIdTrace) = Mode.edit
      ∧ (runTrace initState staleIdTrace).current_file_id = some ("a")
      ∧ "a" ∉ createdIdsTrace initState staleIdTrace
      ∧ "a" ∉ lastListIds staleIdTrace := by
  decide
